import Mathlib

/-!
Verification development for the rpi-sensor-exporter polling core (main.go).

The embedding models float64 arithmetic with real numbers, a Prometheus
gauge registry as a partial map from label keys to last written values,
and one polling cycle (`updateSensors`) as the ordered list of sensor
read events it issues together with the ordered list of registry writes
it performs.  Sensor drivers that failed to start are `none`, mirroring
the nil handles in `main`.
-/

set_option maxHeartbeats 1000000

noncomputable section

/-- Label key of one Prometheus gauge series: metric name plus the
`device`, `location` and (for `sensor_light_raw`) `type` label values. -/
structure GaugeKey where
  metric : String
  device : String
  location : String
  ltype : Option String
deriving DecidableEq

/-- One sensor read operation issued during a polling cycle. -/
inductive ReadEvent where
  | bme280Temperature
  | bme280Pressure
  | bme280Humidity
  | sht2xTemperature
  | sht2xHumidity
  | tsl2561GetLuminocity
deriving DecidableEq

/-- Model of the BME280 driver: each read either yields a value or fails
(`none`), mirroring the `(value, err)` pairs in Go. -/
structure BME280Driver where
  temperature : Option ℝ
  pressure : Option ℝ
  humidity : Option ℝ

/-- Model of the SHT2x driver. -/
structure SHT2xDriver where
  temperature : Option ℝ
  humidity : Option ℝ

/-- Model of the TSL2561 driver: one atomic luminosity read returning the
broadband and infrared channels, plus the driver's lux conversion, kept
as an opaque-to-us function field (external collaborator). -/
structure TSL2561Driver where
  getLuminocity : Option (ℕ × ℕ)
  calculateLux : ℕ → ℕ → ℕ

/-- Bolton's-equation absolute humidity (g/m^3) from temperature (C) and
relative humidity (%), exactly as in `calcAbsoluteHumidity` in main.go. -/
def calcAbsoluteHumidity (t : ℝ) (rh : ℝ) : ℝ :=
  6.112 * Real.exp (17.67 * t / (t + 243.5)) * rh * 2.1674 / (273.15 + t)

/-- The `--- BME280 ---` block of `updateSensors`: if the driver handle is
nil, nothing happens; otherwise the three reads are issued, and the four
gauge writes are performed only when all three reads succeeded. -/
def updateBME280 (bme : Option BME280Driver) :
    List ReadEvent × List (GaugeKey × ℝ) :=
  match bme with
  | none => ([], [])
  | some b =>
    match b.temperature, b.pressure, b.humidity with
    | some t, some p, some h =>
        ([.bme280Temperature, .bme280Pressure, .bme280Humidity],
         [(⟨"sensor_temperature_celsius", "bme280", "indoor", none⟩, t),
          (⟨"sensor_pressure_hpa", "bme280", "indoor", none⟩, p / 100),
          (⟨"sensor_humidity_percent", "bme280", "indoor", none⟩, h),
          (⟨"sensor_absolute_humidity_g_m3", "bme280", "indoor", none⟩,
            calcAbsoluteHumidity t h)])
    | _, _, _ =>
        ([.bme280Temperature, .bme280Pressure, .bme280Humidity], [])

/-- The `--- SHT2x ---` block of `updateSensors`. -/
def updateSHT2x (sht : Option SHT2xDriver) :
    List ReadEvent × List (GaugeKey × ℝ) :=
  match sht with
  | none => ([], [])
  | some s =>
    match s.temperature, s.humidity with
    | some t, some h =>
        ([.sht2xTemperature, .sht2xHumidity],
         [(⟨"sensor_temperature_celsius", "sht2x", "indoor", none⟩, t),
          (⟨"sensor_humidity_percent", "sht2x", "indoor", none⟩, h),
          (⟨"sensor_absolute_humidity_g_m3", "sht2x", "indoor", none⟩,
            calcAbsoluteHumidity t h)])
    | _, _ =>
        ([.sht2xTemperature, .sht2xHumidity], [])

/-- The `--- TSL2561 ---` block of `updateSensors`: one atomic luminosity
read; on success the lux conversion and the three gauge writes. -/
def updateTSL2561 (tsl : Option TSL2561Driver) :
    List ReadEvent × List (GaugeKey × ℝ) :=
  match tsl with
  | none => ([], [])
  | some l =>
    match l.getLuminocity with
    | some (bb, ir) =>
        ([.tsl2561GetLuminocity],
         [(⟨"sensor_illuminance_lux", "tsl2561", "indoor", none⟩,
            (l.calculateLux bb ir : ℝ)),
          (⟨"sensor_light_raw", "tsl2561", "indoor", some "broadband"⟩, (bb : ℝ)),
          (⟨"sensor_light_raw", "tsl2561", "indoor", some "infrared"⟩, (ir : ℝ))])
    | none => ([.tsl2561GetLuminocity], [])

/-- One full polling cycle (`updateSensors` in main.go): the three sensor
blocks run in order; the cycle's read events and registry writes are the
concatenations of the blocks' events and writes. -/
def updateSensors (bme : Option BME280Driver) (sht : Option SHT2xDriver)
    (tsl : Option TSL2561Driver) : List ReadEvent × List (GaugeKey × ℝ) :=
  ((updateBME280 bme).1 ++ (updateSHT2x sht).1 ++ (updateTSL2561 tsl).1,
   (updateBME280 bme).2 ++ (updateSHT2x sht).2 ++ (updateTSL2561 tsl).2)

/-- The metrics registry: last written value per gauge key, `none` if the
series was never written. -/
abbrev Registry := GaugeKey → Option ℝ

/-- A registry with no series written yet. -/
def emptyRegistry : Registry := fun _ => none

/-- One gauge write (`GaugeVec.WithLabelValues(...).Set(v)`):
last-write-wins on the key, all other series untouched. -/
def setValue (r : Registry) (k : GaugeKey) (v : ℝ) : Registry :=
  fun q => if q = k then some v else r q

/-- Apply a cycle's write list to the registry, in order. -/
def applyWrites (r : Registry) (ws : List (GaugeKey × ℝ)) : Registry :=
  ws.foldl (fun acc kv => setValue acc kv.1 kv.2) r

/-- Effect of one polling cycle on the registry. -/
def runCycle (bme : Option BME280Driver) (sht : Option SHT2xDriver)
    (tsl : Option TSL2561Driver) (r : Registry) : Registry :=
  applyWrites r (updateSensors bme sht tsl).2

/-- Effect of `n` consecutive polling cycles on the registry; the driver
handles are fixed at startup and passed unchanged to every cycle, as in
the goroutine of `main`. -/
def runCycles (bme : Option BME280Driver) (sht : Option SHT2xDriver)
    (tsl : Option TSL2561Driver) (r : Registry) : ℕ → Registry
  | 0 => r
  | n + 1 => runCycles bme sht tsl (runCycle bme sht tsl r) n

/-- The writes of a cycle that belong to a given device label. -/
def writesFor (device : String) (ws : List (GaugeKey × ℝ)) :
    List (GaugeKey × ℝ) :=
  ws.filter (fun kv => kv.1.device == device)

/-- Polling interval in seconds (`sensorUpdateInterval = 5 * time.Second`). -/
def sensorUpdateInterval : ℕ := 5

/-- Start time (in seconds from goroutine start) of the n-th polling
cycle: `updateSensors` runs immediately, then once per ticker tick. -/
def pollStartTime : ℕ → ℕ
  | 0 => 0
  | n + 1 => pollStartTime n + sensorUpdateInterval

/-! ### Structural lemmas about one cycle's write list -/

theorem updateBME280_success (t p h : ℝ) :
    (updateBME280 (some ⟨some t, some p, some h⟩)).2 =
      [(⟨"sensor_temperature_celsius", "bme280", "indoor", none⟩, t),
       (⟨"sensor_pressure_hpa", "bme280", "indoor", none⟩, p / 100),
       (⟨"sensor_humidity_percent", "bme280", "indoor", none⟩, h),
       (⟨"sensor_absolute_humidity_g_m3", "bme280", "indoor", none⟩,
         calcAbsoluteHumidity t h)] := rfl

theorem updateSHT2x_success (t h : ℝ) :
    (updateSHT2x (some ⟨some t, some h⟩)).2 =
      [(⟨"sensor_temperature_celsius", "sht2x", "indoor", none⟩, t),
       (⟨"sensor_humidity_percent", "sht2x", "indoor", none⟩, h),
       (⟨"sensor_absolute_humidity_g_m3", "sht2x", "indoor", none⟩,
         calcAbsoluteHumidity t h)] := rfl

theorem updateTSL2561_success (bb ir : ℕ) (f : ℕ → ℕ → ℕ) :
    (updateTSL2561 (some ⟨some (bb, ir), f⟩)).2 =
      [(⟨"sensor_illuminance_lux", "tsl2561", "indoor", none⟩, (f bb ir : ℝ)),
       (⟨"sensor_light_raw", "tsl2561", "indoor", some "broadband"⟩, (bb : ℝ)),
       (⟨"sensor_light_raw", "tsl2561", "indoor", some "infrared"⟩, (ir : ℝ))] := rfl

theorem updateBME280_failure (b : BME280Driver)
    (hfail : b.temperature = none ∨ b.pressure = none ∨ b.humidity = none) :
    (updateBME280 (some b)).2 = [] := by
  obtain ⟨t, p, h⟩ := b
  rcases t with _ | t <;> rcases p with _ | p <;> rcases h with _ | h <;>
    simp_all [updateBME280]

theorem updateSHT2x_failure (s : SHT2xDriver)
    (hfail : s.temperature = none ∨ s.humidity = none) :
    (updateSHT2x (some s)).2 = [] := by
  obtain ⟨t, h⟩ := s
  rcases t with _ | t <;> rcases h with _ | h <;> simp_all [updateSHT2x]

theorem updateTSL2561_failure (l : TSL2561Driver)
    (hfail : l.getLuminocity = none) :
    (updateTSL2561 (some l)).2 = [] := by
  obtain ⟨lum, f⟩ := l
  rcases lum with _ | ⟨bb, ir⟩ <;> simp_all [updateTSL2561]

theorem updateBME280_device (bme : Option BME280Driver) :
    ∀ kv ∈ (updateBME280 bme).2, kv.1.device = "bme280" := by
  rcases bme with _ | ⟨t, p, h⟩
  · simp [updateBME280]
  · rcases t with _ | t <;> rcases p with _ | p <;> rcases h with _ | h <;>
      simp [updateBME280]

theorem updateSHT2x_device (sht : Option SHT2xDriver) :
    ∀ kv ∈ (updateSHT2x sht).2, kv.1.device = "sht2x" := by
  rcases sht with _ | ⟨t, h⟩
  · simp [updateSHT2x]
  · rcases t with _ | t <;> rcases h with _ | h <;> simp [updateSHT2x]

theorem updateTSL2561_device (tsl : Option TSL2561Driver) :
    ∀ kv ∈ (updateTSL2561 tsl).2, kv.1.device = "tsl2561" := by
  rcases tsl with _ | ⟨lum, f⟩
  · simp [updateTSL2561]
  · rcases lum with _ | ⟨bb, ir⟩ <;> simp [updateTSL2561]

theorem writesFor_append (d : String) (xs ys : List (GaugeKey × ℝ)) :
    writesFor d (xs ++ ys) = writesFor d xs ++ writesFor d ys := by
  simp [writesFor]

theorem writesFor_eq_self (d : String) (ws : List (GaugeKey × ℝ))
    (h : ∀ kv ∈ ws, kv.1.device = d) : writesFor d ws = ws := by
  simp only [writesFor, List.filter_eq_self]
  intro kv hkv
  simp [h kv hkv]

theorem writesFor_eq_nil (d d' : String) (ws : List (GaugeKey × ℝ))
    (hne : d ≠ d') (h : ∀ kv ∈ ws, kv.1.device = d) : writesFor d' ws = [] := by
  simp only [writesFor, List.filter_eq_nil_iff]
  intro kv hkv
  rw [h kv hkv]
  simpa using hne

theorem writesFor_bme280 (bme : Option BME280Driver) (sht : Option SHT2xDriver)
    (tsl : Option TSL2561Driver) :
    writesFor "bme280" (updateSensors bme sht tsl).2 = (updateBME280 bme).2 := by
  show writesFor "bme280"
      ((updateBME280 bme).2 ++ (updateSHT2x sht).2 ++ (updateTSL2561 tsl).2) = _
  rw [writesFor_append, writesFor_append,
      writesFor_eq_self _ _ (updateBME280_device bme),
      writesFor_eq_nil "sht2x" "bme280" _ (by decide) (updateSHT2x_device sht),
      writesFor_eq_nil "tsl2561" "bme280" _ (by decide) (updateTSL2561_device tsl)]
  simp

theorem writesFor_sht2x (bme : Option BME280Driver) (sht : Option SHT2xDriver)
    (tsl : Option TSL2561Driver) :
    writesFor "sht2x" (updateSensors bme sht tsl).2 = (updateSHT2x sht).2 := by
  show writesFor "sht2x"
      ((updateBME280 bme).2 ++ (updateSHT2x sht).2 ++ (updateTSL2561 tsl).2) = _
  rw [writesFor_append, writesFor_append,
      writesFor_eq_self _ _ (updateSHT2x_device sht),
      writesFor_eq_nil "bme280" "sht2x" _ (by decide) (updateBME280_device bme),
      writesFor_eq_nil "tsl2561" "sht2x" _ (by decide) (updateTSL2561_device tsl)]
  simp

theorem writesFor_tsl2561 (bme : Option BME280Driver) (sht : Option SHT2xDriver)
    (tsl : Option TSL2561Driver) :
    writesFor "tsl2561" (updateSensors bme sht tsl).2 = (updateTSL2561 tsl).2 := by
  show writesFor "tsl2561"
      ((updateBME280 bme).2 ++ (updateSHT2x sht).2 ++ (updateTSL2561 tsl).2) = _
  rw [writesFor_append, writesFor_append,
      writesFor_eq_self _ _ (updateTSL2561_device tsl),
      writesFor_eq_nil "bme280" "tsl2561" _ (by decide) (updateBME280_device bme),
      writesFor_eq_nil "sht2x" "tsl2561" _ (by decide) (updateSHT2x_device sht)]
  simp

/-! ### Registry frame lemmas -/

theorem applyWrites_not_mem (r : Registry) (ws : List (GaugeKey × ℝ))
    (k : GaugeKey) (h : ∀ kv ∈ ws, kv.1 ≠ k) : applyWrites r ws k = r k := by
  induction ws generalizing r with
  | nil => rfl
  | cons a tl ih =>
      have hk : a.1 ≠ k := h a (List.mem_cons_self a tl)
      have hstep : applyWrites r (a :: tl) = applyWrites (setValue r a.1 a.2) tl := rfl
      rw [hstep, ih _ (fun kv hkv => h kv (List.mem_cons_of_mem a hkv))]
      simp only [setValue]
      rw [if_neg (fun hE => hk hE.symm)]

theorem applyWrites_device_frame (r : Registry) (ws : List (GaugeKey × ℝ))
    (d : String) (k : GaugeKey) (hk : k.device = d)
    (h : writesFor d ws = []) : applyWrites r ws k = r k := by
  simp only [writesFor] at h
  apply applyWrites_not_mem
  intro kv hkv hEq
  have hno := (List.filter_eq_nil_iff.mp h) kv hkv
  apply hno
  simp [hEq, hk]

theorem runCycle_frame (bme : Option BME280Driver) (sht : Option SHT2xDriver)
    (tsl : Option TSL2561Driver) (r : Registry) (k : GaugeKey) (d : String)
    (hk : k.device = d)
    (h : writesFor d (updateSensors bme sht tsl).2 = []) :
    runCycle bme sht tsl r k = r k :=
  applyWrites_device_frame r _ d k hk h

theorem runCycles_frame (bme : Option BME280Driver) (sht : Option SHT2xDriver)
    (tsl : Option TSL2561Driver) (d : String)
    (h : writesFor d (updateSensors bme sht tsl).2 = []) :
    ∀ (n : ℕ) (r : Registry) (k : GaugeKey), k.device = d →
      runCycles bme sht tsl r n k = r k := by
  intro n
  induction n with
  | zero => intro r k _; rfl
  | succ m ih =>
      intro r k hk
      have hstep : runCycles bme sht tsl r (m + 1) =
          runCycles bme sht tsl (runCycle bme sht tsl r) m := rfl
      rw [hstep, ih _ k hk, runCycle_frame bme sht tsl r k d hk h]

/-! ### Read-event lemmas -/

theorem updateBME280_reads (bme : Option BME280Driver) :
    ∀ e ∈ (updateBME280 bme).1,
      e = ReadEvent.bme280Temperature ∨ e = ReadEvent.bme280Pressure ∨
        e = ReadEvent.bme280Humidity := by
  rcases bme with _ | ⟨t, p, h⟩
  · simp [updateBME280]
  · rcases t with _ | t <;> rcases p with _ | p <;> rcases h with _ | h <;>
      simp [updateBME280]

theorem updateSHT2x_reads (sht : Option SHT2xDriver) :
    ∀ e ∈ (updateSHT2x sht).1,
      e = ReadEvent.sht2xTemperature ∨ e = ReadEvent.sht2xHumidity := by
  rcases sht with _ | ⟨t, h⟩
  · simp [updateSHT2x]
  · rcases t with _ | t <;> rcases h with _ | h <;> simp [updateSHT2x]

theorem updateTSL2561_reads (tsl : Option TSL2561Driver) :
    ∀ e ∈ (updateTSL2561 tsl).1, e = ReadEvent.tsl2561GetLuminocity := by
  rcases tsl with _ | ⟨lum, f⟩
  · simp [updateTSL2561]
  · rcases lum with _ | ⟨bb, ir⟩ <;> simp [updateTSL2561]

/-! ### Key-set lemmas (for the label invariant) -/

theorem updateBME280_keys (bme : Option BME280Driver) :
    ∀ kv ∈ (updateBME280 bme).2,
      kv.1 ∈ [(⟨"sensor_temperature_celsius", "bme280", "indoor", none⟩ : GaugeKey),
              ⟨"sensor_pressure_hpa", "bme280", "indoor", none⟩,
              ⟨"sensor_humidity_percent", "bme280", "indoor", none⟩,
              ⟨"sensor_absolute_humidity_g_m3", "bme280", "indoor", none⟩] := by
  rcases bme with _ | ⟨t, p, h⟩
  · simp [updateBME280]
  · rcases t with _ | t <;> rcases p with _ | p <;> rcases h with _ | h <;>
      simp [updateBME280]

theorem updateSHT2x_keys (sht : Option SHT2xDriver) :
    ∀ kv ∈ (updateSHT2x sht).2,
      kv.1 ∈ [(⟨"sensor_temperature_celsius", "sht2x", "indoor", none⟩ : GaugeKey),
              ⟨"sensor_humidity_percent", "sht2x", "indoor", none⟩,
              ⟨"sensor_absolute_humidity_g_m3", "sht2x", "indoor", none⟩] := by
  rcases sht with _ | ⟨t, h⟩
  · simp [updateSHT2x]
  · rcases t with _ | t <;> rcases h with _ | h <;> simp [updateSHT2x]

theorem updateTSL2561_keys (tsl : Option TSL2561Driver) :
    ∀ kv ∈ (updateTSL2561 tsl).2,
      kv.1 ∈ [(⟨"sensor_illuminance_lux", "tsl2561", "indoor", none⟩ : GaugeKey),
              ⟨"sensor_light_raw", "tsl2561", "indoor", some "broadband"⟩,
              ⟨"sensor_light_raw", "tsl2561", "indoor", some "infrared"⟩] := by
  rcases tsl with _ | ⟨lum, f⟩
  · simp [updateTSL2561]
  · rcases lum with _ | ⟨bb, ir⟩ <;> simp [updateTSL2561]

/-! ### The claims -/

/-- Claim C1: per polling cycle and per present source, metric updates are
all-or-nothing: when every required read of a source succeeds, each of its
series is written exactly once with the raw/derived values; when any
required read fails, none of its series is written and the registry keeps
its prior values on that source's series. -/
theorem claim_C1_all_or_nothing :
    (∀ (t p h : ℝ) (sht : Option SHT2xDriver) (tsl : Option TSL2561Driver),
      writesFor "bme280" (updateSensors (some ⟨some t, some p, some h⟩) sht tsl).2 =
        [(⟨"sensor_temperature_celsius", "bme280", "indoor", none⟩, t),
         (⟨"sensor_pressure_hpa", "bme280", "indoor", none⟩, p / 100),
         (⟨"sensor_humidity_percent", "bme280", "indoor", none⟩, h),
         (⟨"sensor_absolute_humidity_g_m3", "bme280", "indoor", none⟩,
           calcAbsoluteHumidity t h)]) ∧
    (∀ (b : BME280Driver) (sht : Option SHT2xDriver) (tsl : Option TSL2561Driver),
      b.temperature = none ∨ b.pressure = none ∨ b.humidity = none →
        writesFor "bme280" (updateSensors (some b) sht tsl).2 = [] ∧
        ∀ (r : Registry) (k : GaugeKey), k.device = "bme280" →
          runCycle (some b) sht tsl r k = r k) ∧
    (∀ (t h : ℝ) (bme : Option BME280Driver) (tsl : Option TSL2561Driver),
      writesFor "sht2x" (updateSensors bme (some ⟨some t, some h⟩) tsl).2 =
        [(⟨"sensor_temperature_celsius", "sht2x", "indoor", none⟩, t),
         (⟨"sensor_humidity_percent", "sht2x", "indoor", none⟩, h),
         (⟨"sensor_absolute_humidity_g_m3", "sht2x", "indoor", none⟩,
           calcAbsoluteHumidity t h)]) ∧
    (∀ (s : SHT2xDriver) (bme : Option BME280Driver) (tsl : Option TSL2561Driver),
      s.temperature = none ∨ s.humidity = none →
        writesFor "sht2x" (updateSensors bme (some s) tsl).2 = [] ∧
        ∀ (r : Registry) (k : GaugeKey), k.device = "sht2x" →
          runCycle bme (some s) tsl r k = r k) ∧
    (∀ (bb ir : ℕ) (f : ℕ → ℕ → ℕ) (bme : Option BME280Driver)
        (sht : Option SHT2xDriver),
      writesFor "tsl2561" (updateSensors bme sht (some ⟨some (bb, ir), f⟩)).2 =
        [(⟨"sensor_illuminance_lux", "tsl2561", "indoor", none⟩, (f bb ir : ℝ)),
         (⟨"sensor_light_raw", "tsl2561", "indoor", some "broadband"⟩, (bb : ℝ)),
         (⟨"sensor_light_raw", "tsl2561", "indoor", some "infrared"⟩, (ir : ℝ))]) ∧
    (∀ (l : TSL2561Driver) (bme : Option BME280Driver) (sht : Option SHT2xDriver),
      l.getLuminocity = none →
        writesFor "tsl2561" (updateSensors bme sht (some l)).2 = [] ∧
        ∀ (r : Registry) (k : GaugeKey), k.device = "tsl2561" →
          runCycle bme sht (some l) r k = r k) := by
  refine ⟨?_, ?_, ?_, ?_, ?_, ?_⟩
  · intro t p h sht tsl
    rw [writesFor_bme280, updateBME280_success]
  · intro b sht tsl hfail
    have hnil : writesFor "bme280" (updateSensors (some b) sht tsl).2 = [] := by
      rw [writesFor_bme280]; exact updateBME280_failure b hfail
    exact ⟨hnil, fun r k hk => runCycle_frame _ _ _ r k "bme280" hk hnil⟩
  · intro t h bme tsl
    rw [writesFor_sht2x, updateSHT2x_success]
  · intro s bme tsl hfail
    have hnil : writesFor "sht2x" (updateSensors bme (some s) tsl).2 = [] := by
      rw [writesFor_sht2x]; exact updateSHT2x_failure s hfail
    exact ⟨hnil, fun r k hk => runCycle_frame _ _ _ r k "sht2x" hk hnil⟩
  · intro bb ir f bme sht
    rw [writesFor_tsl2561, updateTSL2561_success]
  · intro l bme sht hfail
    have hnil : writesFor "tsl2561" (updateSensors bme sht (some l)).2 = [] := by
      rw [writesFor_tsl2561]; exact updateTSL2561_failure l hfail
    exact ⟨hnil, fun r k hk => runCycle_frame _ _ _ r k "tsl2561" hk hnil⟩

/-- Claim C1, witnessed at concrete inputs: a fully successful BME280 cycle
writes exactly its four series, and a cycle whose temperature read failed
writes nothing for the device and leaves the registry unchanged there. -/
theorem claim_C1_witness :
    writesFor "bme280"
        (updateSensors (some ⟨some 22, some 101325, some 45⟩) none none).2 =
      [(⟨"sensor_temperature_celsius", "bme280", "indoor", none⟩, (22 : ℝ)),
       (⟨"sensor_pressure_hpa", "bme280", "indoor", none⟩, (101325 : ℝ) / 100),
       (⟨"sensor_humidity_percent", "bme280", "indoor", none⟩, (45 : ℝ)),
       (⟨"sensor_absolute_humidity_g_m3", "bme280", "indoor", none⟩,
         calcAbsoluteHumidity 22 45)] ∧
    writesFor "bme280"
        (updateSensors (some ⟨none, some 1, some 2⟩) none none).2 = [] ∧
    runCycle (some ⟨none, some 1, some 2⟩) none none emptyRegistry
        ⟨"sensor_temperature_celsius", "bme280", "indoor", none⟩ =
      emptyRegistry ⟨"sensor_temperature_celsius", "bme280", "indoor", none⟩ :=
  ⟨claim_C1_all_or_nothing.1 22 101325 45 none none,
   (claim_C1_all_or_nothing.2.1 ⟨none, some 1, some 2⟩ none none (Or.inl rfl)).1,
   (claim_C1_all_or_nothing.2.1 ⟨none, some 1, some 2⟩ none none (Or.inl rfl)).2
     emptyRegistry _ rfl⟩

/-- Claim C2: failure isolation across sources — each source's published
writes in a cycle depend only on its own driver, so another source's
failure (or any change to it at all) leaves them exactly as they would
have been. -/
theorem claim_C2_failure_isolation :
    ∀ (bme bme' : Option BME280Driver) (sht sht' : Option SHT2xDriver)
      (tsl tsl' : Option TSL2561Driver),
      writesFor "bme280" (updateSensors bme sht tsl).2 =
        writesFor "bme280" (updateSensors bme sht' tsl').2 ∧
      writesFor "sht2x" (updateSensors bme sht tsl).2 =
        writesFor "sht2x" (updateSensors bme' sht tsl').2 ∧
      writesFor "tsl2561" (updateSensors bme sht tsl).2 =
        writesFor "tsl2561" (updateSensors bme' sht' tsl).2 := by
  intro bme bme' sht sht' tsl tsl'
  refine ⟨?_, ?_, ?_⟩
  · rw [writesFor_bme280, writesFor_bme280]
  · rw [writesFor_sht2x, writesFor_sht2x]
  · rw [writesFor_tsl2561, writesFor_tsl2561]

/-- Claim C4: a cycle in which the combined T/H/P source reads T=22.0 C,
P=101325 Pa, H=45.0 % writes temperature 22.0, pressure 1013.25 hPa
(Pa to hPa conversion), humidity 45.0 and the absolute humidity derived
from that same cycle's temperature and humidity. -/
theorem claim_C4_combined_scenario :
    ∀ (sht : Option SHT2xDriver) (tsl : Option TSL2561Driver),
      writesFor "bme280"
          (updateSensors (some ⟨some 22, some 101325, some 45⟩) sht tsl).2 =
        [(⟨"sensor_temperature_celsius", "bme280", "indoor", none⟩, (22 : ℝ)),
         (⟨"sensor_pressure_hpa", "bme280", "indoor", none⟩, (1013.25 : ℝ)),
         (⟨"sensor_humidity_percent", "bme280", "indoor", none⟩, (45 : ℝ)),
         (⟨"sensor_absolute_humidity_g_m3", "bme280", "indoor", none⟩,
           calcAbsoluteHumidity 22 45)] := by
  intro sht tsl
  rw [writesFor_bme280, updateBME280_success]
  norm_num

/-- Claim C5: a cycle in which the light source's atomic luminosity read
returns broadband 100 and infrared 20 writes the two raw series with 100
and 20 and the illuminance series with the external lux conversion's
output for that same channel pair. -/
theorem claim_C5_light_scenario :
    ∀ (bme : Option BME280Driver) (sht : Option SHT2xDriver) (f : ℕ → ℕ → ℕ),
      writesFor "tsl2561"
          (updateSensors bme sht (some ⟨some (100, 20), f⟩)).2 =
        [(⟨"sensor_illuminance_lux", "tsl2561", "indoor", none⟩, (f 100 20 : ℝ)),
         (⟨"sensor_light_raw", "tsl2561", "indoor", some "broadband"⟩, (100 : ℝ)),
         (⟨"sensor_light_raw", "tsl2561", "indoor", some "infrared"⟩, (20 : ℝ))] := by
  intro bme sht f
  rw [writesFor_tsl2561, updateTSL2561_success]
  norm_num

/-- Claim C6: the first polling cycle starts immediately (at time 0,
before one interval elapses) and each subsequent cycle starts exactly
5 seconds after the previous one, for every cycle index (the loop never
halts). -/
theorem claim_C6_cadence :
    pollStartTime 0 = 0 ∧
    pollStartTime 0 < sensorUpdateInterval ∧
    (∀ n : ℕ, pollStartTime (n + 1) - pollStartTime n = 5) ∧
    (∀ n : ℕ, pollStartTime (n + 1) = pollStartTime n + sensorUpdateInterval) ∧
    StrictMono pollStartTime := by
  refine ⟨rfl, by norm_num [pollStartTime, sensorUpdateInterval], ?_, fun n => rfl, ?_⟩
  · intro n
    simp [pollStartTime, sensorUpdateInterval]
  · apply strictMono_nat_of_lt_succ
    intro n
    simp [pollStartTime, sensorUpdateInterval]

/-- Claim C7: a source whose activation failed (nil handle) is never read
and never written in any later polling cycle: its read events never occur
and after any number of cycles every series with its device label is
unchanged. -/
theorem claim_C7_absent_source :
    (∀ (sht : Option SHT2xDriver) (tsl : Option TSL2561Driver),
      (∀ e ∈ (updateSensors none sht tsl).1,
        e ≠ ReadEvent.bme280Temperature ∧ e ≠ ReadEvent.bme280Pressure ∧
          e ≠ ReadEvent.bme280Humidity) ∧
      ∀ (n : ℕ) (r : Registry) (k : GaugeKey), k.device = "bme280" →
        runCycles none sht tsl r n k = r k) ∧
    (∀ (bme : Option BME280Driver) (tsl : Option TSL2561Driver),
      (∀ e ∈ (updateSensors bme none tsl).1,
        e ≠ ReadEvent.sht2xTemperature ∧ e ≠ ReadEvent.sht2xHumidity) ∧
      ∀ (n : ℕ) (r : Registry) (k : GaugeKey), k.device = "sht2x" →
        runCycles bme none tsl r n k = r k) ∧
    (∀ (bme : Option BME280Driver) (sht : Option SHT2xDriver),
      (∀ e ∈ (updateSensors bme sht none).1,
        e ≠ ReadEvent.tsl2561GetLuminocity) ∧
      ∀ (n : ℕ) (r : Registry) (k : GaugeKey), k.device = "tsl2561" →
        runCycles bme sht none r n k = r k) := by
  refine ⟨?_, ?_, ?_⟩
  · intro sht tsl
    constructor
    · intro e he
      have hsplit : e ∈ (updateSHT2x sht).1 ∨ e ∈ (updateTSL2561 tsl).1 := by
        have : e ∈ ([] : List ReadEvent) ++ (updateSHT2x sht).1 ++ (updateTSL2561 tsl).1 := he
        simpa using this
      rcases hsplit with hs | hl
      · rcases updateSHT2x_reads sht e hs with h | h <;> subst h <;>
          exact ⟨by decide, by decide, by decide⟩
      · have h := updateTSL2561_reads tsl e hl
        subst h
        exact ⟨by decide, by decide, by decide⟩
    · intro n r k hk
      refine runCycles_frame none sht tsl "bme280" ?_ n r k hk
      rw [writesFor_bme280]
      rfl
  · intro bme tsl
    constructor
    · intro e he
      have hsplit : e ∈ (updateBME280 bme).1 ∨ e ∈ (updateTSL2561 tsl).1 := by
        have : e ∈ (updateBME280 bme).1 ++ ([] : List ReadEvent) ++ (updateTSL2561 tsl).1 := he
        simpa using this
      rcases hsplit with hb | hl
      · rcases updateBME280_reads bme e hb with h | h | h <;> subst h <;>
          exact ⟨by decide, by decide⟩
      · have h := updateTSL2561_reads tsl e hl
        subst h
        exact ⟨by decide, by decide⟩
    · intro n r k hk
      refine runCycles_frame bme none tsl "sht2x" ?_ n r k hk
      rw [writesFor_sht2x]
      rfl
  · intro bme sht
    constructor
    · intro e he
      have hsplit : e ∈ (updateBME280 bme).1 ∨ e ∈ (updateSHT2x sht).1 := by
        have : e ∈ (updateBME280 bme).1 ++ (updateSHT2x sht).1 ++ ([] : List ReadEvent) := he
        simpa using this
      rcases hsplit with hb | hs
      · rcases updateBME280_reads bme e hb with h | h | h <;> subst h <;> decide
      · rcases updateSHT2x_reads sht e hs with h | h <;> subst h <;> decide
    · intro n r k hk
      refine runCycles_frame bme sht none "tsl2561" ?_ n r k hk
      rw [writesFor_tsl2561]
      rfl

/-- Claim C7, witnessed: with the BME280 absent and the other two present
and succeeding, the cycle's first read event is not a BME280 read, and
three cycles leave the BME280 temperature series unwritten. -/
theorem claim_C7_witness :
    (ReadEvent.sht2xTemperature ≠ ReadEvent.bme280Temperature ∧
      ReadEvent.sht2xTemperature ≠ ReadEvent.bme280Pressure ∧
      ReadEvent.sht2xTemperature ≠ ReadEvent.bme280Humidity) ∧
    runCycles none (some ⟨some 20, some 50⟩) none emptyRegistry 3
        ⟨"sensor_temperature_celsius", "bme280", "indoor", none⟩ =
      emptyRegistry ⟨"sensor_temperature_celsius", "bme280", "indoor", none⟩ :=
  ⟨(claim_C7_absent_source.1 (some ⟨some 20, some 50⟩) none).1
      ReadEvent.sht2xTemperature (by simp [updateSensors, updateSHT2x]),
   (claim_C7_absent_source.1 (some ⟨some 20, some 50⟩) none).2 3 emptyRegistry _ rfl⟩

/-- Claim C10: zero relative humidity gives exactly zero absolute
humidity for every temperature above -243.5 C (where the exponential is
finite and the denominator positive). -/
theorem claim_C10_zero_humidity (t : ℝ) (_ht : -243.5 < t) :
    calcAbsoluteHumidity t 0 = 0 := by
  simp [calcAbsoluteHumidity]

/-- Claim C10, witnessed at t = 0 C. -/
theorem claim_C10_witness : calcAbsoluteHumidity 0 0 = 0 :=
  claim_C10_zero_humidity 0 (by norm_num)

/-! ### Numeric bounds for Bolton's formula at T=25, RH=50 -/

theorem exp_y_gt : (2.27646923 : ℝ) < Real.exp (589 / 716) := by
  have h := Real.sum_le_exp_of_nonneg (show (0:ℝ) ≤ 589/716 by norm_num) 10
  refine lt_of_lt_of_le ?_ h
  rw [Finset.sum_range_succ, Finset.sum_range_succ, Finset.sum_range_succ,
      Finset.sum_range_succ, Finset.sum_range_succ, Finset.sum_range_succ,
      Finset.sum_range_succ, Finset.sum_range_succ, Finset.sum_range_succ,
      Finset.sum_range_succ, Finset.sum_range_zero]
  norm_num [Nat.factorial]

theorem exp_y_lt : Real.exp (589 / 716) < 2.27646932 := by
  have h := @Real.exp_bound' (589/716) (by norm_num) (by norm_num) 10 (by norm_num)
  refine lt_of_le_of_lt h ?_
  rw [Finset.sum_range_succ, Finset.sum_range_succ, Finset.sum_range_succ,
      Finset.sum_range_succ, Finset.sum_range_succ, Finset.sum_range_succ,
      Finset.sum_range_succ, Finset.sum_range_succ, Finset.sum_range_succ,
      Finset.sum_range_succ, Finset.sum_range_zero]
  norm_num [Nat.factorial]

/-- Claim C3: `calcAbsoluteHumidity` is exactly Bolton's
`6.112 * exp(17.67*t/(t+243.5)) * rh * 2.1674 / (273.15+t)` with the
natural exponential (float64 arithmetic modelled by the reals), and at
t=25 C, rh=50 % the value is within 1e-2 of 11.51 g/m^3. -/
theorem claim_C3_bolton_formula :
    (∀ t rh : ℝ, calcAbsoluteHumidity t rh =
      6.112 * Real.exp (17.67 * t / (t + 243.5)) * rh * 2.1674 / (273.15 + t)) ∧
    |calcAbsoluteHumidity 25 50 - 11.51| < 1e-2 := by
  refine ⟨fun t rh => rfl, ?_⟩
  have hx : (17.67:ℝ) * 25 / (25 + 243.5) = 589/716 + 589/716 := by norm_num
  have h1 := exp_y_gt
  have h2 := exp_y_lt
  rw [calcAbsoluteHumidity, hx, Real.exp_add, abs_lt]
  have hpos : (0:ℝ) < Real.exp (589/716) := Real.exp_pos _
  have hE2lo : (2.27646923:ℝ) * 2.27646923 <
      Real.exp ((589:ℝ)/716) * Real.exp ((589:ℝ)/716) := by nlinarith
  have hE2hi : Real.exp ((589:ℝ)/716) * Real.exp ((589:ℝ)/716) <
      (2.27646932:ℝ) * 2.27646932 := by nlinarith
  have hden : (0:ℝ) < 273.15 + 25 := by norm_num
  have hlo : (11.50:ℝ) <
      6.112 * (Real.exp ((589:ℝ)/716) * Real.exp ((589:ℝ)/716)) * 50 * 2.1674 /
        (273.15 + 25) := by
    rw [lt_div_iff₀ hden]
    nlinarith [hE2lo]
  have hhi : 6.112 * (Real.exp ((589:ℝ)/716) * Real.exp ((589:ℝ)/716)) * 50 * 2.1674 /
      (273.15 + 25) < 11.52 := by
    rw [div_lt_iff₀ hden]
    nlinarith [hE2hi]
  constructor <;> linarith

/-- Claim C8: `calcAbsoluteHumidity` is a total pure function of its two
real inputs — defined by Bolton's expression for every input with no
validation, clamping or error branch — and the polling cycle writes its
output to the absolute-humidity series as-is for all inputs, with no
special-casing of any value (the quantifiers range over every
temperature, including -273.15, and every humidity, in or out of
0-100). -/
theorem claim_C8_total_unvalidated :
    (∀ t rh : ℝ, calcAbsoluteHumidity t rh =
      6.112 * Real.exp (17.67 * t / (t + 243.5)) * rh * 2.1674 / (273.15 + t)) ∧
    (∀ (t p rh : ℝ) (sht : Option SHT2xDriver) (tsl : Option TSL2561Driver),
      writesFor "bme280" (updateSensors (some ⟨some t, some p, some rh⟩) sht tsl).2 =
        [(⟨"sensor_temperature_celsius", "bme280", "indoor", none⟩, t),
         (⟨"sensor_pressure_hpa", "bme280", "indoor", none⟩, p / 100),
         (⟨"sensor_humidity_percent", "bme280", "indoor", none⟩, rh),
         (⟨"sensor_absolute_humidity_g_m3", "bme280", "indoor", none⟩,
           calcAbsoluteHumidity t rh)]) := by
  refine ⟨fun t rh => rfl, ?_⟩
  intro t p rh sht tsl
  rw [writesFor_bme280, updateBME280_success]

/-- Claim C9: every registry write of any polling cycle carries location
label "indoor" and one of the three device labels, with the fixed
device-to-metric mapping: pressure only under bme280, illuminance and raw
light only under tsl2561, and temperature, humidity and absolute humidity
only under bme280 or sht2x. -/
theorem claim_C9_label_invariant :
    ∀ (bme : Option BME280Driver) (sht : Option SHT2xDriver)
      (tsl : Option TSL2561Driver), ∀ kv ∈ (updateSensors bme sht tsl).2,
      kv.1.location = "indoor" ∧
      (kv.1.device = "bme280" ∨ kv.1.device = "sht2x" ∨ kv.1.device = "tsl2561") ∧
      (kv.1.metric = "sensor_pressure_hpa" → kv.1.device = "bme280") ∧
      ((kv.1.metric = "sensor_illuminance_lux" ∨ kv.1.metric = "sensor_light_raw") →
        kv.1.device = "tsl2561") ∧
      ((kv.1.metric = "sensor_temperature_celsius" ∨
          kv.1.metric = "sensor_humidity_percent" ∨
          kv.1.metric = "sensor_absolute_humidity_g_m3") →
        kv.1.device = "bme280" ∨ kv.1.device = "sht2x") := by
  intro bme sht tsl kv hkv
  have hsplit : kv ∈ (updateBME280 bme).2 ∨ kv ∈ (updateSHT2x sht).2 ∨
      kv ∈ (updateTSL2561 tsl).2 := by
    have hm : kv ∈ (updateBME280 bme).2 ++ (updateSHT2x sht).2 ++
        (updateTSL2561 tsl).2 := hkv
    simpa [or_assoc] using hm
  rcases hsplit with hb | hs | hl
  · have hkey := updateBME280_keys bme kv hb
    simp only [List.mem_cons, List.not_mem_nil, or_false] at hkey
    rcases hkey with h | h | h | h <;> rw [h] <;> decide
  · have hkey := updateSHT2x_keys sht kv hs
    simp only [List.mem_cons, List.not_mem_nil, or_false] at hkey
    rcases hkey with h | h | h <;> rw [h] <;> decide
  · have hkey := updateTSL2561_keys tsl kv hl
    simp only [List.mem_cons, List.not_mem_nil, or_false] at hkey
    rcases hkey with h | h | h <;> rw [h] <;> decide

/-- Claim C9, witnessed at the temperature write of a successful BME280
cycle. -/
theorem claim_C9_witness :
    (⟨"sensor_temperature_celsius", "bme280", "indoor", none⟩ : GaugeKey).location
        = "indoor" ∧
    ((⟨"sensor_temperature_celsius", "bme280", "indoor", none⟩ : GaugeKey).device
          = "bme280" ∨
      (⟨"sensor_temperature_celsius", "bme280", "indoor", none⟩ : GaugeKey).device
          = "sht2x" ∨
      (⟨"sensor_temperature_celsius", "bme280", "indoor", none⟩ : GaugeKey).device
          = "tsl2561") ∧
    ((⟨"sensor_temperature_celsius", "bme280", "indoor", none⟩ : GaugeKey).metric
        = "sensor_pressure_hpa" →
      (⟨"sensor_temperature_celsius", "bme280", "indoor", none⟩ : GaugeKey).device
        = "bme280") ∧
    (((⟨"sensor_temperature_celsius", "bme280", "indoor", none⟩ : GaugeKey).metric
          = "sensor_illuminance_lux" ∨
        (⟨"sensor_temperature_celsius", "bme280", "indoor", none⟩ : GaugeKey).metric
          = "sensor_light_raw") →
      (⟨"sensor_temperature_celsius", "bme280", "indoor", none⟩ : GaugeKey).device
        = "tsl2561") ∧
    (((⟨"sensor_temperature_celsius", "bme280", "indoor", none⟩ : GaugeKey).metric
          = "sensor_temperature_celsius" ∨
        (⟨"sensor_temperature_celsius", "bme280", "indoor", none⟩ : GaugeKey).metric
          = "sensor_humidity_percent" ∨
        (⟨"sensor_temperature_celsius", "bme280", "indoor", none⟩ : GaugeKey).metric
          = "sensor_absolute_humidity_g_m3") →
      (⟨"sensor_temperature_celsius", "bme280", "indoor", none⟩ : GaugeKey).device
          = "bme280" ∨
        (⟨"sensor_temperature_celsius", "bme280", "indoor", none⟩ : GaugeKey).device
          = "sht2x") :=
  claim_C9_label_invariant (some ⟨some 22, some 101325, some 45⟩) none none
    (⟨"sensor_temperature_celsius", "bme280", "indoor", none⟩, 22)
    (by simp [updateSensors, updateBME280])
